import Mathlib

/-!
Verification of the vaccination-dashboard forecasting core (`MRP.py`).

The development shallowly embeds the Series Builder and Forecast Engine of
the program: pandas dataframes become lists of records, the `VACCINATED`
normalisation (line 406) becomes a function on embedded Python values,
`groupby("YEAR").size()` (line 410) becomes a sorted-key grouping, and the
ARIMA fit/forecast calls (lines 413-425) become explicit state: the fitted
parameters are abstracted as a function argument (the library's maximum
likelihood estimation is deterministic and numeric), while the point
forecast recursion and the output assembly are embedded concretely.
Exceptions are modelled with `Except`.
-/

namespace MRP

/-- Embedded Python scalar values as they occur in the `VACCINATED` column
of the source dataset (booleans, 0/1 integers, raw strings, or a missing
cell, which pandas represents as NaN). -/
inductive PyVal : Type
  | pyBool (b : Bool)
  | pyInt (n : Int)
  | pyStr (s : String)
  | pyNone
deriving DecidableEq

/-- Python `str.lower()` on a single character, restricted to ASCII (the
values of the VACCINATED column are ASCII renderings). -/
def lowerChar (c : Char) : Char :=
  if 'A' ≤ c ∧ c ≤ 'Z' then Char.ofNat (c.toNat + 32) else c

/-- Python `str.lower()` as applied by `.str.lower()` on a column
(line 406): lower-case every character. -/
def lowerStr (s : String) : String := ⟨s.data.map lowerChar⟩

/-- Python `str(v)` as applied by `astype(str)` on a column (line 406):
booleans render as "True"/"False", integers in decimal, strings unchanged,
and a missing value (NaN) renders as "nan". -/
def pyStrOf : PyVal → String
  | .pyBool true => "True"
  | .pyBool false => "False"
  | .pyInt n => toString n
  | .pyStr s => s
  | .pyNone => "nan"

/-- Line 406: `astype(str).str.lower().map({"true": 1, "false": 0})`.
The dictionary map sends "true" to 1, "false" to 0 and anything else to
NaN, embedded as `none`. -/
def vaccMap (v : PyVal) : Option Int :=
  if lowerStr (pyStrOf v) = "true" then some 1
  else if lowerStr (pyStrOf v) = "false" then some 0
  else none

/-- A row of the full Synthea frame, loaded with
`usecols=["YEAR", "VACCINATED"]` (line 403). -/
structure FullRow : Type where
  YEAR : Int
  VACCINATED : PyVal
deriving DecidableEq

/-- Line 407: `full_df[full_df["VACCINATED"] == 1]` after the line-406
normalisation; NaN compares unequal to 1, so only cells mapped to 1 pass. -/
def vaccinated_full (rows : List FullRow) : List FullRow :=
  rows.filter (fun r => vaccMap r.VACCINATED == some 1)

section GroupBy

variable {α : Type} [LinearOrder α]

/-- Insert a key into a strictly sorted list of keys, keeping it strictly
sorted and duplicate-free (the key set of a pandas groupby). -/
def insertKey (y : α) : List α → List α
  | [] => [y]
  | z :: zs =>
    if y < z then y :: z :: zs
    else if y = z then z :: zs
    else z :: insertKey y zs

/-- The ascending duplicate-free list of keys occurring in `l`. -/
def sortedKeys (l : List α) : List α := l.foldr insertKey []

theorem mem_insertKey (a y : α) (l : List α) :
    a ∈ insertKey y l ↔ a = y ∨ a ∈ l := by
  induction l with
  | nil => simp [insertKey]
  | cons z zs ih =>
    by_cases h1 : y < z
    · simp [insertKey, h1]
    · by_cases h2 : y = z
      · subst h2
        simp [insertKey, h1]
      · simp [insertKey, h1, h2, ih]
        tauto

theorem sorted_insertKey (y : α) (l : List α)
    (h : List.Pairwise (· < ·) l) :
    List.Pairwise (· < ·) (insertKey y l) := by
  induction l with
  | nil => simp [insertKey]
  | cons z zs ih =>
    rcases List.pairwise_cons.mp h with ⟨hz, hzs⟩
    by_cases h1 : y < z
    · rw [insertKey]
      simp only [if_pos h1]
      refine List.pairwise_cons.mpr ⟨?_, h⟩
      intro b hb
      rcases List.mem_cons.mp hb with rfl | hb2
      · exact h1
      · exact lt_trans h1 (hz b hb2)
    · by_cases h2 : y = z
      · rw [insertKey]
        simp only [if_neg h1, if_pos h2]
        exact h
      · rw [insertKey]
        simp only [if_neg h1, if_neg h2]
        refine List.pairwise_cons.mpr ⟨?_, ih hzs⟩
        intro b hb
        rcases (mem_insertKey b y zs).mp hb with rfl | hb2
        · exact lt_of_le_of_ne (le_of_not_lt h1) (Ne.symm h2)
        · exact hz b hb2

theorem sorted_sortedKeys (l : List α) :
    List.Pairwise (· < ·) (sortedKeys l) := by
  induction l with
  | nil => simp [sortedKeys]
  | cons x xs ih => exact sorted_insertKey x _ ih

theorem mem_sortedKeys (a : α) (l : List α) :
    a ∈ sortedKeys l ↔ a ∈ l := by
  induction l with
  | nil => simp [sortedKeys]
  | cons x xs ih =>
    simp only [sortedKeys, List.foldr_cons, List.mem_cons]
    rw [mem_insertKey]
    rw [show xs.foldr insertKey [] = sortedKeys xs from rfl, ih]

/-- `groupby(key).size()` on a list: one row per distinct key, ascending,
whose count is the number of elements with that key (pandas sorts group
keys ascending by default). -/
def groupby_size {β : Type} (key : β → α) (l : List β) : List (α × Nat) :=
  (sortedKeys (l.map key)).map (fun y => (y, l.countP (fun b => key b == y)))

end GroupBy

/-- Line 410: `vaccinated_full.groupby("YEAR").size()` — the yearly
vaccinated-count series, ascending by year. -/
def yearly_vax (rows : List FullRow) : List (Int × Nat) :=
  groupby_size (fun r => r.YEAR) (vaccinated_full rows)

/-- Exceptions that can cross the forecast section. `valueError` stands for
the generic library exceptions (pandas/statsmodels `ValueError` and kin).
`insufficientDataError` and `modelFitError` are the distinguishable error
classes the specification postulates; the source neither defines nor
raises them, and they are included only so that statements about them can
be written. -/
inductive PyExn : Type
  | valueError
  | insufficientDataError
  | modelFitError
deriving DecidableEq

/-- The parameters and terminal state of a fitted ARIMA(1,1,1) model with
one order of differencing: autoregressive and moving-average coefficients
and the last level, last first-difference and last residual of the
training series, which determine all point forecasts. -/
structure FittedModel : Type where
  phi : ℚ
  theta : ℚ
  lastLevel : ℚ
  lastDiff : ℚ
  lastResid : ℚ
deriving DecidableEq

/-- h-step-ahead point forecast of the differenced series:
step 0 uses the last observed difference and residual, later steps apply
the autoregressive coefficient to the previous forecast (the
moving-average term vanishes beyond one step). -/
def diffStep (m : FittedModel) : Nat → ℚ
  | 0 => m.phi * m.lastDiff + m.theta * m.lastResid
  | n + 1 => m.phi * diffStep m n

/-- Line 419: `model_fit.forecast(steps=5)` — point forecasts on the level
scale, obtained by cumulating the forecast differences onto the last
observed level; one value per step. -/
def forecast (m : FittedModel) (steps : Nat) : List ℚ :=
  (List.range steps).map
    (fun h => m.lastLevel + (((List.range (h + 1)).map (diffStep m)).sum))

/-- Line 413: `ARIMA(yearly_vax["vaccinated_count"], order=(1, 1, 1))` —
the model object carries the endogenous series (the counts column only;
the years are not passed) and the hard-coded order. -/
structure ArimaSpec : Type where
  endog : List ℚ
  order : Nat × Nat × Nat
deriving DecidableEq

/-- The counts column `yearly_vax["vaccinated_count"]`, as rationals (the
series handed to the model carries only values, positionally indexed). -/
def countsOf (yv : List (Int × Nat)) : List ℚ :=
  yv.map (fun p => (p.2 : ℚ))

/-- Line 413, applied to the counts column. -/
def model (counts : List ℚ) : ArimaSpec :=
  { endog := counts, order := (1, 1, 1) }

/-- The orders appearing at the `ARIMA(...)` constructor call sites of
`MRP.py`: there is exactly one such site (line 413), with order (1,1,1). -/
def arima_call_orders : List (Nat × Nat × Nat) := [(1, 1, 1)]

/-- Line 414: `model_fit = model.fit()`. The maximum-likelihood estimation
itself is numeric library code and is abstracted as the function `fit`; on
an empty endogenous series the library raises (a generic `ValueError`-like
exception), which the source does not catch. -/
def model_fit (fit : List ℚ → FittedModel) (am : ArimaSpec) :
    Except PyExn FittedModel :=
  if am.endog.isEmpty then .error .valueError else .ok (fit am.endog)

/-- Line 418: `future_years = list(range(year_max + 1, year_max + 6))`. -/
def future_years (year_max : Int) : List Int :=
  (List.range 5).map (fun i => year_max + 1 + i)

/-- Lines 422-425: the forecast frame pairs the future years with the
forecast values, in order. -/
def forecast_df (years : List Int) (vals : List ℚ) : List (Int × ℚ) :=
  years.zip vals

/-- `int(yearly_vax["YEAR"].max())` (line 417), as a total helper for
statements: the maximum year of the series, 0 on the empty series (where
the source would already have raised at the fit). -/
def last_year (yv : List (Int × Nat)) : Int :=
  ((yv.map Prod.fst).max?).getD 0

/-- Lines 413-425: the fit-and-forecast cycle on a yearly count series:
build the model on the counts column, fit it (library failure on an empty
series propagates), then assemble the forecast frame for the next five
years after the maximum input year. -/
def forecastEngine (fit : List ℚ → FittedModel) (yv : List (Int × Nat)) :
    Except PyExn (List (Int × ℚ)) := do
  let am := model (countsOf yv)
  let m ← model_fit fit am
  match (yv.map Prod.fst).max? with
  | none => .error .valueError
  | some ym => pure (forecast_df (future_years ym) (forecast m 5))

/-- Line 478: `compare_vax_df` — the Synthea versus real-time comparison
frame built after the forecast section. -/
def compare_vax_df (totalVacc : Nat) (realTotal : ℚ) : List (String × ℚ) :=
  [("Synthea", (totalVacc : ℚ)), ("Real-Time", realTotal)]

/-- Lines 401-484 (the branch where the Synthea file exists): the script
builds the yearly series, runs the fit-and-forecast cycle with no
try/except around it, and only afterwards builds the comparison frame; an
exception from the fit therefore aborts everything after line 414. -/
def script_tail (fit : List ℚ → FittedModel) (rows : List FullRow)
    (totalVacc : Nat) (realTotal : ℚ) :
    Except PyExn ((List (Int × Nat) × List (Int × ℚ)) × List (String × ℚ)) := do
  let yv := yearly_vax rows
  let fdf ← forecastEngine fit yv
  pure ((yv, fdf), compare_vax_df totalVacc realTotal)

/-- A concrete stand-in estimator used to instantiate statements at
concrete inputs. -/
def constFit : List ℚ → FittedModel :=
  fun _ => { phi := 1/2, theta := 1/4, lastLevel := 10, lastDiff := 2, lastResid := 1 }

/-- Big-step relation of the fit-and-forecast cycle (lines 413-425), one
constructor per control path of the source: the fit raises on an empty
counts column, otherwise the forecast frame is assembled from the fitted
model and the maximum year. Stated as a relation so that determinism is a
theorem about it rather than a definitional triviality. -/
inductive EngineRun (fit : List ℚ → FittedModel) :
    List (Int × Nat) → Except PyExn (List (Int × ℚ)) → Prop
  | fitRaises (yv : List (Int × Nat)) :
      countsOf yv = [] →
      EngineRun fit yv (.error .valueError)
  | fitted (yv : List (Int × Nat)) (m : FittedModel) (ym : Int) (fc : List ℚ) :
      countsOf yv ≠ [] →
      m = fit (model (countsOf yv)).endog →
      (yv.map Prod.fst).max? = some ym →
      fc = forecast m 5 →
      EngineRun fit yv (.ok (forecast_df (future_years ym) fc))

/-- A row of the dashboard frame read back from the SQLite table (lines
196-197); `VACCINATED` is declared BOOLEAN in SQLite, which stores 0/1
integers, and the dashboard compares it against 1 and 0 directly. -/
structure DbRow : Type where
  STATE : String
  CITY : String
  AGE_GROUP : String
  GENDER : String
  ETHNICITY : String
  VACCINATED : Int
  Year : Int
  DESCRIPTION : String
deriving DecidableEq

/-- Line 209: `df[(df["STATE"] == state) & (df["CITY"] == city) &
(df["DESCRIPTION"].isin(vaccine))]` — the user filter; `isin` is
set-membership in the multiselect list. -/
def filtered_df (df : List DbRow) (state city : String)
    (vaccine : List String) : List DbRow :=
  df.filter (fun r =>
    (r.STATE == state && r.CITY == city) && vaccine.contains r.DESCRIPTION)

/-- Line 244: `filtered_df[filtered_df["VACCINATED"] == 1].shape[0]`. -/
def total_vaccinated (fdf : List DbRow) : Nat :=
  (fdf.filter (fun r => r.VACCINATED == 1)).length

/-- Line 245: `filtered_df[filtered_df["VACCINATED"] == 0].shape[0]`. -/
def total_non_vaccinated (fdf : List DbRow) : Nat :=
  (fdf.filter (fun r => r.VACCINATED == 0)).length

/-- Line 246: `total_count = total_vaccinated + total_non_vaccinated`. -/
def total_count (fdf : List DbRow) : Nat :=
  total_vaccinated fdf + total_non_vaccinated fdf

/-- Line 268/306: `filtered_df[filtered_df["VACCINATED"] == 1]`. -/
def vaccinated_df (fdf : List DbRow) : List DbRow :=
  fdf.filter (fun r => r.VACCINATED == 1)

/-- Line 269: `filtered_df[filtered_df["VACCINATED"] == 0]`. -/
def non_vaccinated_df (fdf : List DbRow) : List DbRow :=
  fdf.filter (fun r => r.VACCINATED == 0)

/-- Lines 309-317 with the `.map(...).fillna("Unknown")` of line 321: the
ethnicity-to-race dictionary, defaulting to "Unknown" off the keys. -/
def race_mapping (e : String) : String :=
  if e = "Hispanic or Latino" then "Hispanic"
  else if e = "Not Hispanic or Latino" then "White"
  else if e = "African American" then "Black"
  else if e = "Asian" then "Asian"
  else if e = "Native American" then "Native American"
  else if e = "Pacific Islander" then "Pacific Islander"
  else if e = "Other" then "Other"
  else "Unknown"

/-- Line 355: `vaccinated_df.groupby("RACE").size()` with RACE derived on
line 321 from ETHNICITY via the race mapping. -/
def vaccinated_race_summary (vdf : List DbRow) : List (String × Nat) :=
  groupby_size (fun r => race_mapping r.ETHNICITY) vdf

theorem length_forecast (m : FittedModel) (steps : Nat) :
    (forecast m steps).length = steps := by
  simp [forecast]

theorem length_future_years (ym : Int) : (future_years ym).length = 5 := by
  rfl

theorem future_years_eq (ym : Int) :
    future_years ym = [ym + 1, ym + 2, ym + 3, ym + 4, ym + 5] := by
  unfold future_years
  norm_num [List.range_succ]
  omega

theorem mem_groupby_size {α β : Type} [LinearOrder α] (key : β → α)
    (l : List β) (y : α) (c : Nat) :
    (y, c) ∈ groupby_size key l ↔
      y ∈ l.map key ∧ c = l.countP (fun b => key b == y) := by
  unfold groupby_size
  rw [List.mem_map]
  constructor
  · rintro ⟨z, hz, heq⟩
    rw [Prod.mk.injEq] at heq
    obtain ⟨rfl, rfl⟩ := heq
    exact ⟨(mem_sortedKeys _ _).mp hz, rfl⟩
  · rintro ⟨hy, rfl⟩
    exact ⟨y, (mem_sortedKeys _ _).mpr hy, rfl⟩

theorem pairwise_groupby_size {α β : Type} [LinearOrder α] (key : β → α)
    (l : List β) :
    List.Pairwise (· < ·) ((groupby_size key l).map Prod.fst) := by
  unfold groupby_size
  rw [List.map_map]
  have h : (Prod.fst ∘ fun y => (y, l.countP (fun b => key b == y))) = id := rfl
  rw [h, List.map_id]
  exact sorted_sortedKeys _

theorem forecastEngine_cons (fit : List ℚ → FittedModel) (p : Int × Nat)
    (rest : List (Int × Nat)) :
    forecastEngine fit (p :: rest) =
      .ok (forecast_df (future_years ((rest.map Prod.fst).foldl max p.1))
        (forecast (fit (countsOf (p :: rest))) 5)) := rfl

theorem last_year_cons (p : Int × Nat) (rest : List (Int × Nat)) :
    last_year (p :: rest) = (rest.map Prod.fst).foldl max p.1 := rfl

theorem map_fst_forecast_df (years : List Int) (vals : List ℚ)
    (h : years.length ≤ vals.length) :
    (forecast_df years vals).map Prod.fst = years :=
  List.map_fst_zip years vals h

theorem map_snd_forecast_df (years : List Int) (vals : List ℚ)
    (h : vals.length ≤ years.length) :
    (forecast_df years vals).map Prod.snd = vals :=
  List.map_snd_zip years vals h

/-- The predicted-count column of a forecast outcome, `none` when the run
raised. -/
def predicted_values (r : Except PyExn (List (Int × ℚ))) : Option (List ℚ) :=
  match r with
  | .ok fdf => some (fdf.map Prod.snd)
  | .error _ => none

/-- Direct per-year enumeration following the specification's words: the
number of records of the collection that are marked vaccinated and carry
the given year. -/
def directYearCount (rows : List FullRow) (y : Int) : Nat :=
  rows.countP (fun r => (vaccMap r.VACCINATED == some 1) && (r.YEAR == y))

/-- C1: on every yearly count series on which the model fit succeeds (in
this embedding, every non-empty series), the forecast engine returns a
forecast frame of length exactly 5 whose years are last_year+1 through
last_year+5, paired in order with the 5 forecast values. -/
theorem forecast_output_shape (fit : List ℚ → FittedModel)
    (yv : List (Int × Nat)) (h : yv ≠ []) :
    ∃ fdf, forecastEngine fit yv = .ok fdf ∧ fdf.length = 5 ∧
      fdf.map Prod.fst =
        [last_year yv + 1, last_year yv + 2, last_year yv + 3,
          last_year yv + 4, last_year yv + 5] ∧
      fdf.map Prod.snd = forecast (fit (countsOf yv)) 5 := by
  match yv, h with
  | p :: rest, _ =>
    refine ⟨forecast_df (future_years ((rest.map Prod.fst).foldl max p.1))
      (forecast (fit (countsOf (p :: rest))) 5),
      forecastEngine_cons fit p rest, ?_, ?_, ?_⟩
    · unfold forecast_df
      rw [List.length_zip, length_future_years, length_forecast]
      rfl
    · rw [map_fst_forecast_df _ _ (by rw [length_future_years, length_forecast]),
        last_year_cons, future_years_eq]
    · rw [map_snd_forecast_df _ _ (by rw [length_future_years, length_forecast])]

/-- C1 witness: the shape theorem instantiated on the one-point series
(2018, 3) with the concrete stand-in estimator. -/
theorem forecast_output_shape_witness :
    ∃ fdf, forecastEngine constFit [((2018 : Int), 3)] = .ok fdf ∧
      fdf.length = 5 ∧
      fdf.map Prod.fst =
        [last_year [((2018 : Int), 3)] + 1, last_year [((2018 : Int), 3)] + 2,
          last_year [((2018 : Int), 3)] + 3, last_year [((2018 : Int), 3)] + 4,
          last_year [((2018 : Int), 3)] + 5] ∧
      fdf.map Prod.snd = forecast (constFit (countsOf [((2018 : Int), 3)])) 5 :=
  forecast_output_shape constFit [((2018 : Int), 3)] (by decide)

/-- C2 counterexample: on the empty series the engine fails with the
generic library exception of the uncaught `fit` call, which is not the
distinguishable `InsufficientDataError` the claim requires (no such error
class exists in the program). -/
theorem empty_series_error_class :
    forecastEngine constFit [] = .error PyExn.valueError ∧
      PyExn.valueError ≠ PyExn.insufficientDataError :=
  ⟨rfl, by decide⟩

/-- C2 amended: for the empty input series the fit raises the generic
library exception and no forecast frame is produced. -/
theorem empty_series_raises (fit : List ℚ → FittedModel) :
    forecastEngine fit [] = .error PyExn.valueError := rfl

/-- C3 counterexample: a failing fit (here: on the empty series) escapes
the forecast call boundary and aborts the rest of the script run — the
comparison section after the forecast is never reached and no
informational message is produced. -/
theorem fit_failure_aborts_script :
    script_tail constFit [] 0 0 = .error PyExn.valueError := rfl

/-- C3 amended: a model-estimation failure is not caught at the forecast
call boundary: whatever exception the fit raises propagates out of the
forecast step and aborts the remainder of the script run. -/
theorem fit_failure_propagates (fit : List ℚ → FittedModel)
    (rows : List FullRow) (tv : Nat) (rt : ℚ) (e : PyExn)
    (h : forecastEngine fit (yearly_vax rows) = .error e) :
    script_tail fit rows tv rt = .error e := by
  show (do
    let fdf ← forecastEngine fit (yearly_vax rows)
    pure ((yearly_vax rows, fdf), compare_vax_df tv rt) :
      Except PyExn ((List (Int × Nat) × List (Int × ℚ)) × List (String × ℚ)))
    = Except.error e
  rw [h]
  rfl

/-- C3 witness: the propagation theorem instantiated on the empty record
collection, whose series is empty and whose fit therefore raises. -/
theorem fit_failure_propagates_witness :
    script_tail constFit [] 3 (7 : ℚ) = .error PyExn.valueError :=
  fit_failure_propagates constFit [] 3 (7 : ℚ) PyExn.valueError rfl

/-- C5 counterexample: the source has a single `ARIMA(...)` call site
(line 413); its order is (1,1,1) and no call site uses (5,1,0), so the
claimed pair of distinct call sites does not exist. -/
theorem arima_single_call_site :
    arima_call_orders = [(1, 1, 1)] ∧
      arima_call_orders.contains (5, 1, 0) = false := by
  constructor
  · rfl
  · rfl

/-- C5 amended: the program's forecasting uses exactly one ARIMA call
site, and the model object it builds always carries order (1,1,1). -/
theorem arima_order_unique (counts : List ℚ) :
    (model counts).order = (1, 1, 1) ∧
      arima_call_orders = [(model counts).order] :=
  ⟨rfl, rfl⟩

/-- C4: the count the series builder assigns to a year agrees with the
direct per-year enumeration of vaccinated records: a pair (y, c) is in
the series exactly when the direct count of matching records at year y is
positive and equals c. -/
theorem yearly_vax_agrees (rows : List FullRow) (y : Int) (c : Nat) :
    (y, c) ∈ yearly_vax rows ↔
      0 < directYearCount rows y ∧ c = directYearCount rows y := by
  have hcnt : (vaccinated_full rows).countP (fun r => r.YEAR == y) =
      directYearCount rows y := by
    unfold vaccinated_full directYearCount
    rw [List.countP_filter]
    apply List.countP_congr
    intro r _
    simp [Bool.and_comm]
  rw [yearly_vax, mem_groupby_size, hcnt]
  constructor
  · rintro ⟨hy, rfl⟩
    refine ⟨?_, rfl⟩
    rw [← hcnt]
    rcases List.mem_map.mp hy with ⟨r, hr, rfl⟩
    exact List.countP_pos_iff.mpr ⟨r, hr, by simp⟩
  · rintro ⟨hpos, rfl⟩
    refine ⟨?_, rfl⟩
    rw [← hcnt] at hpos
    rcases List.countP_pos_iff.mp hpos with ⟨r, hr, hp⟩
    exact List.mem_map.mpr ⟨r, hr, by simpa using hp⟩

/-- C6: the fit-and-forecast cycle, read as the big-step relation of the
source's control paths, is deterministic: two runs on the same series
with the same configuration produce the same outcome. -/
theorem engine_deterministic (fit : List ℚ → FittedModel)
    (yv : List (Int × Nat)) (o₁ o₂ : Except PyExn (List (Int × ℚ)))
    (h₁ : EngineRun fit yv o₁) (h₂ : EngineRun fit yv o₂) : o₁ = o₂ := by
  cases h₁ with
  | fitRaises he₁ =>
    cases h₂ with
    | fitRaises _ => rfl
    | fitted _ _ _ hne _ _ _ => exact absurd he₁ hne
  | fitted m₁ ym₁ fc₁ hne₁ hm₁ hmax₁ hfc₁ =>
    cases h₂ with
    | fitRaises he₂ => exact absurd he₂ hne₁
    | fitted m₂ ym₂ fc₂ hne₂ hm₂ hmax₂ hfc₂ =>
      subst hm₁
      subst hm₂
      subst hfc₁
      subst hfc₂
      rw [hmax₁] at hmax₂
      injection hmax₂ with hy
      subst hy
      rfl

/-- C6 witness: two runs of the relation on the concrete series
[(2018, 3), (2019, 5)] with the stand-in estimator give equal outcomes. -/
theorem engine_deterministic_witness :
    (Except.ok (forecast_df (future_years 2019)
        (forecast (constFit (countsOf [((2018 : Int), 3), (2019, 5)])) 5)) :
      Except PyExn (List (Int × ℚ))) =
      Except.ok (forecast_df (future_years 2019)
        (forecast (constFit (countsOf [((2018 : Int), 3), (2019, 5)])) 5)) :=
  engine_deterministic constFit [((2018 : Int), 3), (2019, 5)] _ _
    (EngineRun.fitted _ _ 2019 _ (by decide) rfl (by decide) rfl)
    (EngineRun.fitted _ _ 2019 _ (by decide) rfl (by decide) rfl)

/-- C7: the model is fit on the positional index of the counts, not the
year labels: two series with the same ordered counts produce the same
predicted values, whatever their year labels. -/
theorem positional_fit (fit : List ℚ → FittedModel)
    (s₁ s₂ : List (Int × Nat)) (h : s₁.map Prod.snd = s₂.map Prod.snd) :
    predicted_values (forecastEngine fit s₁) =
      predicted_values (forecastEngine fit s₂) := by
  have hc : countsOf s₁ = countsOf s₂ := by
    unfold countsOf
    have h2 := congrArg (List.map (fun n : Nat => (n : ℚ))) h
    simpa [List.map_map, Function.comp] using h2
  cases s₁ with
  | nil =>
    have h3 : List.map Prod.snd s₂ = [] := h.symm
    have h2 : s₂ = [] := List.map_eq_nil_iff.mp h3
    subst h2
    rfl
  | cons p t =>
    cases s₂ with
    | nil => simp at h
    | cons q u =>
      rw [forecastEngine_cons, forecastEngine_cons]
      simp only [predicted_values]
      rw [map_snd_forecast_df _ _ (by rw [length_future_years, length_forecast]),
        map_snd_forecast_df _ _ (by rw [length_future_years, length_forecast]),
        hc]

/-- C7 witness: a gapped series and a contiguous series with the same
count column give the same predicted values. -/
theorem positional_fit_witness :
    predicted_values (forecastEngine constFit [((2018 : Int), 3), (2020, 5)]) =
      predicted_values (forecastEngine constFit [((2100 : Int), 3), (2101, 5)]) :=
  positional_fit constFit [((2018 : Int), 3), (2020, 5)]
    [((2100 : Int), 3), (2101, 5)] (by decide)

/-- C8: the series builder's output is strictly increasing by year (hence
duplicate-free) with positive (hence non-negative) counts, and when no
vaccinated record matches the output is the empty series, with no error
raised (the builder is a total function). -/
theorem series_shape (rows : List FullRow) :
    List.Pairwise (· < ·) ((yearly_vax rows).map Prod.fst) ∧
      (∀ p ∈ yearly_vax rows, 0 < p.2) ∧
      (vaccinated_full rows = [] → yearly_vax rows = []) := by
  refine ⟨pairwise_groupby_size _ _, ?_, ?_⟩
  · rintro ⟨y, c⟩ hp
    rcases (mem_groupby_size _ _ _ _).mp hp with ⟨hy, rfl⟩
    rcases List.mem_map.mp hy with ⟨r, hr, rfl⟩
    exact List.countP_pos_iff.mpr ⟨r, hr, by simp⟩
  · intro h
    unfold yearly_vax
    rw [h]
    rfl

/-- C8 witness: a collection with only a non-vaccinated record yields the
empty series, and a concrete point of a one-record series has a positive
count. -/
theorem series_shape_witness :
    yearly_vax [⟨2020, PyVal.pyInt 0⟩] = [] ∧
      (0 : Nat) < (((2018 : Int), 1) : Int × Nat).2 :=
  ⟨(series_shape [⟨2020, PyVal.pyInt 0⟩]).2.2 (by decide),
    (series_shape [⟨2018, PyVal.pyBool true⟩]).2.1 (2018, 1) (by decide)⟩

/-- C9: a record contributes to the vaccinated series exactly when its
VACCINATED value, rendered as a string and lower-cased, equals "true";
the numeric encodings 1 and 0, the string "false" and a missing value are
mapped to a non-1 value (respectively NaN, NaN, 0, NaN) and silently
excluded. -/
theorem vaccinated_criterion (rows : List FullRow) :
    vaccinated_full rows =
        rows.filter (fun r => lowerStr (pyStrOf r.VACCINATED) == "true") ∧
      vaccMap (PyVal.pyInt 1) = none ∧
      vaccMap (PyVal.pyInt 0) = none ∧
      vaccMap (PyVal.pyStr "false") = some 0 ∧
      vaccMap PyVal.pyNone = none := by
  refine ⟨?_, by decide, by decide, by decide, by decide⟩
  unfold vaccinated_full
  apply List.filter_congr
  intro r _
  unfold vaccMap
  by_cases h : lowerStr (pyStrOf r.VACCINATED) = "true"
  · simp [h]
  · by_cases h2 : lowerStr (pyStrOf r.VACCINATED) = "false" <;> simp [h, h2]

/-- C10: the empty vaccine multiselect means "match nothing": the filtered
frame is empty, every displayed count is zero, and every series derived
from the filtered frame is empty. -/
theorem empty_vaccine_filter (df : List DbRow) (state city : String) :
    filtered_df df state city [] = [] ∧
      total_vaccinated (filtered_df df state city []) = 0 ∧
      total_non_vaccinated (filtered_df df state city []) = 0 ∧
      total_count (filtered_df df state city []) = 0 ∧
      vaccinated_df (filtered_df df state city []) = [] ∧
      non_vaccinated_df (filtered_df df state city []) = [] ∧
      vaccinated_race_summary
        (vaccinated_df (filtered_df df state city [])) = [] := by
  have h : filtered_df df state city [] = [] := by
    unfold filtered_df
    apply List.filter_eq_nil_iff.mpr
    intro r _
    simp [List.contains]
  rw [h]
  exact ⟨rfl, rfl, rfl, rfl, rfl, rfl, rfl⟩

end MRP
